import Mathlib

/-!
# Verification of the sustainable-ux GPU estimation and cadence engine

Shallow embedding of the numeric core of the repository:

* `GPUMonitor` (src/src/GPUMonitor.js): the render-cadence sampler
  (`onFrameRendered`), the utilization/thermal/power estimator
  (`estimateGPUUtilization`), the theme baseline table and the
  snapshot accessor (`getStats`).
* `createModelScene` (src/src/ThreeDModelScene.js): the frame-cadence
  controller (`getEffectiveIntervalMs`, `animate`) and the mode / fps
  setters (`setPerformanceMode`, `setTargetFps`, `setBackgroundFps`).
* `createDoorScene` (src/unnamed, doorScene): its `animate` loop.
* `measureAverages` (src/src/ThreeSceneWithGPU.js) and
  `useRollingBuffer` (src/src/GPUDashboard.js).

JavaScript numbers are modelled as exact rationals (`ℚ`); the places
where the code guards against `NaN`/`Infinity` (empty windows, zero
means) are modelled by the explicit branches the code tests for.
JavaScript truthiness tests on numbers (`x ? _ : _`, `x || d`) are
modelled as zero tests, which is what they amount to on finite numbers.
-/

/-- JavaScript `Math.round`: round half toward positive infinity. -/
def jsRound (x : ℚ) : ℤ := ⌊x + 1/2⌋

/-! ## Utilization / thermal / power estimator (src/src/GPUMonitor.js) -/

/-- `this.themeBaselineWatts` from the `GPUMonitor` constructor:
the table mapping a theme identifier to a baseline idle wattage;
`none` models the absence of a key. -/
def themeBaselineWatts : String → Option ℚ
  | "light" => some 14
  | "dark" => some 9
  | "high-contrast" => some 11
  | "eink" => some 7
  | "oled" => some 6
  | _ => none

/-- Lines 242-245 of `GPUMonitor.estimateGPUUtilization`:
`Math.round(themeBase + dynamicWatts * (utilization / 100))` with
`themeBase = this.themeBaselineWatts[this.currentTheme] ?? 10` and
`dynamicWatts = 70`.  `utilization` is the clamped (unrounded)
utilization value local to the method. -/
def estimatePowerW (theme : String) (utilization : ℚ) : ℤ :=
  jsRound ((themeBaselineWatts theme).getD 10 + 70 * (utilization / 100))

/-- The power formula as the spec words it, for comparison with
`estimatePowerW`: `round(base + 70·(u/100))` where the baseline is
light 14, dark 9, high-contrast 11, eink 7, oled 6, and an unknown
theme falls back to a default baseline of 10 W. -/
def specPowerW (theme : String) (u : ℚ) : ℤ :=
  let base : ℚ :=
    match theme with
    | "light" => 14
    | "dark" => 9
    | "high-contrast" => 11
    | "eink" => 7
    | "oled" => 6
    | _ => 10
  jsRound (base + 70 * (u / 100))

/-- Result record of `GPUMonitor.estimateGPUUtilization` (the three
fields it writes into `this.stats.gpu`). -/
structure GpuEstimate where
  utilizationPct : ℤ
  temperatureC : ℚ
  powerW : ℤ
  deriving DecidableEq, Repr

/-- `GPUMonitor.estimateGPUUtilization` (lines 223-246), as a function
of the state it reads: `this.stats.fps`, `this.dynamicPeakFps`,
`this.stats.drawCalls`, `this.stats.triangles`, `this.currentTheme`.

```
const fps = Math.max(1, this.stats.fps || 0);
const peak = Math.max(1, this.dynamicPeakFps || 60);
const relativeFps = Math.min(1, fps / peak);
const complexity = Math.min(1, (drawCalls / 200) + (triangles / 500000));
let utilization = (relativeFps * 0.7 + complexity * 0.3) * 100;
utilization = Math.max(5, Math.min(100, utilization));
```
then `utilizationPct = round(utilization)`,
`temperatureC = 40 + 35 * (utilization / 100)`, and the power model of
`estimatePowerW`. -/
def estimateGPUUtilization (theme : String)
    (fps dynamicPeakFps drawCalls triangles : ℚ) : GpuEstimate :=
  let f := max 1 fps
  let peak := max 1 (if dynamicPeakFps = 0 then 60 else dynamicPeakFps)
  let relativeFps := min 1 (f / peak)
  let complexity := min 1 (drawCalls / 200 + triangles / 500000)
  let utilization := max 5 (min 100 ((relativeFps * (7/10) + complexity * (3/10)) * 100))
  { utilizationPct := jsRound utilization
    temperatureC := 40 + 35 * (utilization / 100)
    powerW := estimatePowerW theme utilization }

/-- The utilization formula exactly as claimed: clamp applied to the
rounded blend, with the raw `fps` (no floor at 1) and the raw
`peakFps` (no fallback to 60 when zero). -/
def claimedUtilizationPct (fps peakFps drawCalls triangles : ℚ) : ℤ :=
  max 5 (min 100 (jsRound (100 * ((7/10) * min 1 (fps / max 1 peakFps)
    + (3/10) * min 1 (drawCalls / 200 + triangles / 500000)))))

/-! ## Windowed averages (src/src/ThreeSceneWithGPU.js, measureAverages) -/

/-- `samples.reduce((a, b) => a + b, 0) / samples.length || 0`: over an
empty list the division is `0/0 = NaN`, which `|| 0` maps to `0`;
otherwise it is the arithmetic mean (a zero mean is also falsy and
falls back to `0`, the same value). -/
def measureAvg (samples : List ℚ) : ℚ :=
  if samples.isEmpty then 0 else samples.sum / samples.length

/-- The resolved value of `measureAverages`:
`{utilization: Math.round(avgUtil), power: Math.round(avgPower)}`. -/
def measureAveragesResult (utilSamples powerSamples : List ℚ) : ℤ × ℤ :=
  (jsRound (measureAvg utilSamples), jsRound (measureAvg powerSamples))

/-! ## Scene cadence state (src/src/ThreeDModelScene.js) -/

/-- The mutable cadence/resolution variables of `createModelScene`. -/
structure SceneState where
  targetFps : ℚ
  backgroundFps : ℚ
  frameIntervalMs : ℚ
  lastRenderTime : ℚ
  isHidden : Bool
  rampStartMs : ℚ
  rampDurationMs : ℚ
  pixelRatioClamp : ℚ
  viewportScale : ℚ
  deriving DecidableEq, Repr

/-- Initial values: `targetFps = 30`, `backgroundFps = 5`,
`frameIntervalMs = 1000 / targetFps`, `lastRenderTime = 0`,
`rampStartMs = 0`, `rampDurationMs = 900`, `pixelRatioClamp = 1.5`,
`viewportScale = 1.0`, with the tab initially visible. -/
def initialSceneState : SceneState :=
  { targetFps := 30, backgroundFps := 5, frameIntervalMs := 1000 / 30
    lastRenderTime := 0, isHidden := false, rampStartMs := 0
    rampDurationMs := 900, pixelRatioClamp := 3/2, viewportScale := 1 }

/-- `getEffectiveIntervalMs(now)` (lines 175-184):
```
const hiddenInterval = 1000 / Math.max(1, backgroundFps);
const visibleInterval = frameIntervalMs;
if (isHidden) return hiddenInterval;
const t = rampStartMs ? Math.min(1, (now - rampStartMs) / rampDurationMs) : 1;
const eased = t < 1 ? (t*t*(3 - 2*t)) : 1;
return hiddenInterval + (visibleInterval - hiddenInterval) * eased;
``` -/
def getEffectiveIntervalMs (st : SceneState) (now : ℚ) : ℚ :=
  let hiddenInterval := 1000 / max 1 st.backgroundFps
  let visibleInterval := st.frameIntervalMs
  if st.isHidden then hiddenInterval
  else
    let t := if st.rampStartMs = 0 then 1
             else min 1 ((now - st.rampStartMs) / st.rampDurationMs)
    let eased := if t < 1 then t * t * (3 - 2 * t) else 1
    hiddenInterval + (visibleInterval - hiddenInterval) * eased

/-- `animate(now)` (lines 186-203), restricted to the cadence state it
touches; the returned `Bool` records whether this tick rendered
(`renderer.render` + `onFrameRendered` + `lastRenderTime = now`). -/
def animate (st : SceneState) (now : ℚ) : SceneState × Bool :=
  let st0 := if st.lastRenderTime = 0 then { st with lastRenderTime := now } else st
  let elapsed := now - st0.lastRenderTime
  let effInterval := getEffectiveIntervalMs st0 now
  if effInterval ≤ elapsed then ({ st0 with lastRenderTime := now }, true)
  else (st0, false)

/-- `setPerformanceMode(mode)` (lines 207-218). -/
def setPerformanceMode (st : SceneState) (mode : String) : SceneState :=
  if mode = "baseline" then
    { st with targetFps := 60, frameIntervalMs := 1000 / 60, pixelRatioClamp := 3 }
  else
    { st with targetFps := 30, frameIntervalMs := 1000 / 30, pixelRatioClamp := 3/2 }

/-- `setTargetFps(nextFps)` (lines 220-223):
`targetFps = Math.max(1, Math.min(120, nextFps || 30))`;
`frameIntervalMs = 1000 / targetFps`.  A missing argument is `none`
and `nextFps || 30` replaces a falsy (missing or zero) argument by 30. -/
def setTargetFps (st : SceneState) (nextFps : Option ℚ) : SceneState :=
  let v : ℚ := match nextFps with
    | none => 30
    | some x => if x = 0 then 30 else x
  let tf := max 1 (min 120 v)
  { st with targetFps := tf, frameIntervalMs := 1000 / tf }

/-- `setBackgroundFps(nextFps)` (lines 225-227):
`backgroundFps = Math.max(1, Math.min(30, nextFps || 5))`. -/
def setBackgroundFps (st : SceneState) (nextFps : Option ℚ) : SceneState :=
  let v : ℚ := match nextFps with
    | none => 5
    | some x => if x = 0 then 5 else x
  { st with backgroundFps := max 1 (min 30 v) }

/-! ## Door scene cadence (src/unnamed, createDoorScene) -/

/-- The cadence variables of `createDoorScene`. -/
structure DoorState where
  isPaused : Bool
  targetFps : ℚ
  frameIntervalMs : ℚ
  lastRenderTime : ℚ
  pauseOnHidden : Bool
  deriving DecidableEq, Repr

/-- `animate(now)` of `createDoorScene` (part_004, lines 48-72):
an early return while paused, then the same seed/threshold cadence as
the model scene with the fixed `frameIntervalMs` threshold. -/
def animateDoor (st : DoorState) (now : ℚ) : DoorState × Bool :=
  if st.isPaused then (st, false)
  else
    let st0 := if st.lastRenderTime = 0 then { st with lastRenderTime := now } else st
    let elapsed := now - st0.lastRenderTime
    if st0.frameIntervalMs ≤ elapsed then ({ st0 with lastRenderTime := now }, true)
    else (st0, false)

/-! ## Rolling sample windows -/

/-- The push operation shared by every rolling window in the system:
`useRollingBuffer` in src/src/GPUDashboard.js
(`ref.current.push(value); if (ref.current.length > size) ref.current.shift();`)
and the `frameTimes` (capacity 60) and `fpsSamples` (capacity 120)
windows in `GPUMonitor.onFrameRendered`. -/
def pushRolling (size : ℕ) (l : List ℚ) (x : ℚ) : List ℚ :=
  let l1 := l ++ [x]
  if size < l1.length then l1.tail else l1

/-- The last `n` elements of a list (all of it when shorter). -/
def lastN (n : ℕ) (l : List ℚ) : List ℚ := l.drop (l.length - n)

/-- `Math.max(...l)` over a non-empty list; the `[]` case (JS would
give `-Infinity`, which fails the `> 0` guard it is used under) is
mapped to `0`, which fails the same guard. -/
def listMax : List ℚ → ℚ
  | [] => 0
  | x :: xs => xs.foldl max x

/-! ## Render-cadence sampler state (GPUMonitor.onFrameRendered) -/

/-- The `GPUMonitor` fields read and written by `onFrameRendered`:
`lastRenderNow`, `frameTimes`, `stats.frameTime`, `stats.fps`,
`fpsSamples`, `dynamicPeakFps`. -/
structure MonitorSampler where
  lastRenderNow : ℚ
  frameTimes : List ℚ
  frameTime : ℚ
  fps : ℚ
  fpsSamples : List ℚ
  dynamicPeakFps : ℚ
  deriving DecidableEq, Repr

/-- Constructor values: `lastRenderNow = 0`, `frameTimes = []`,
`stats.frameTime = 0`, `stats.fps = 0`, `fpsSamples = []`,
`dynamicPeakFps = 60`. -/
def initSampler : MonitorSampler :=
  { lastRenderNow := 0, frameTimes := [], frameTime := 0, fps := 0
    fpsSamples := [], dynamicPeakFps := 60 }

/-- `GPUMonitor.onFrameRendered(now)` (lines 153-180):
```
if (!this.lastRenderNow) { this.lastRenderNow = now; return; }
const delta = now - this.lastRenderNow;
this.lastRenderNow = now;
this.frameTimes.push(delta);
if (this.frameTimes.length > 60) this.frameTimes.shift();
const avgFrameTime = sum(frameTimes) / frameTimes.length;
if (avgFrameTime && isFinite(avgFrameTime)) {
  this.stats.frameTime = avgFrameTime;
  this.stats.fps = 1000 / avgFrameTime;
  this.fpsSamples.push(this.stats.fps);
  if (this.fpsSamples.length > 120) this.fpsSamples.shift();
  const recentPeak = Math.max(...this.fpsSamples);
  if (isFinite(recentPeak) && recentPeak > 0) this.dynamicPeakFps = recentPeak;
}
```
The truthiness guard `avgFrameTime && ...` is a zero test on the mean
(`NaN`/`Infinity` cannot arise over exact rationals with a non-empty
window). -/
def onFrameRendered (s : MonitorSampler) (now : ℚ) : MonitorSampler :=
  if s.lastRenderNow = 0 then { s with lastRenderNow := now }
  else
    let delta := now - s.lastRenderNow
    let ft := pushRolling 60 s.frameTimes delta
    let avgFrameTime := ft.sum / ft.length
    if avgFrameTime = 0 then
      { s with lastRenderNow := now, frameTimes := ft }
    else
      let fps := 1000 / avgFrameTime
      let fs := pushRolling 120 s.fpsSamples fps
      let recentPeak := listMax fs
      { lastRenderNow := now, frameTimes := ft, frameTime := avgFrameTime
        fps := fps, fpsSamples := fs
        dynamicPeakFps := if 0 < recentPeak then recentPeak else s.dynamicPeakFps }

/-! ## Snapshot aliasing model (GPUMonitor.getStats)

`getStats()` returns `{ ...this.stats }`.  To settle what the spread
copies, the object graph of `this.stats` is modelled with explicit
references: the top-level `stats`-shaped objects (the monitor's own
and every snapshot) live in a heap addressed by `ℕ`, as do the
`memory` and `gpu` records they point to. -/

/-- `this.stats.memory.jsHeap`. -/
structure JsHeapStats where
  used : ℚ
  total : ℚ
  limit : ℚ
  deriving DecidableEq, Repr

/-- `this.stats.memory.webgl`. -/
structure WebglStats where
  geometries : ℚ
  textures : ℚ
  programs : ℚ
  deriving DecidableEq, Repr

/-- `this.stats.memory`.  Its own nested `jsHeap`/`webgl` objects are
inlined as values: the code never copies them separately from
`memory` itself, so their sharing is subsumed by the sharing of the
`memory` reference. -/
structure MemoryStats where
  used : ℚ
  total : ℚ
  available : ℚ
  jsHeap : JsHeapStats
  webgl : WebglStats
  deriving DecidableEq, Repr

/-- `this.stats.gpu` (all three fields start as `null`). -/
structure GpuSubStats where
  temperature : Option ℚ
  utilization : Option ℤ
  power : Option ℤ
  deriving DecidableEq, Repr

/-- A `stats`-shaped object: scalar fields hold values, `memory` and
`gpu` hold heap addresses. -/
structure StatsObj where
  fps : ℚ
  frameTime : ℚ
  drawCalls : ℚ
  triangles : ℚ
  textures : ℚ
  memoryRef : ℕ
  gpuRef : ℕ
  deriving DecidableEq, Repr

/-- The object heap relevant to `getStats`; `nextStats` is the next
fresh address for a `stats`-shaped object. -/
structure StatsHeap where
  statsObjs : ℕ → Option StatsObj
  memObjs : ℕ → Option MemoryStats
  gpuObjs : ℕ → Option GpuSubStats
  nextStats : ℕ

/-- Functional heap update at one address. -/
def updateAt {α : Type} (f : ℕ → Option α) (i : ℕ) (v : α) : ℕ → Option α :=
  fun j => if j = i then some v else f j

/-- `GPUMonitor.getStats()` (lines 248-250): `return { ...this.stats }`.
The spread allocates a fresh top-level object whose fields —
including the `memory` and `gpu` references — are copied from the
monitor's `stats` object.  Returns the updated heap and the
snapshot's address. -/
def getStats (h : StatsHeap) (monitorRef : ℕ) : StatsHeap × ℕ :=
  match h.statsObjs monitorRef with
  | none => (h, monitorRef)
  | some s =>
      ({ h with statsObjs := updateAt h.statsObjs h.nextStats s,
                nextStats := h.nextStats + 1 }, h.nextStats)

/-- Consumer-side `obj.fps = v` on the object at address `ref`. -/
def writeFps (h : StatsHeap) (ref : ℕ) (v : ℚ) : StatsHeap :=
  match h.statsObjs ref with
  | none => h
  | some s =>
      { h with statsObjs := updateAt h.statsObjs ref { s with fps := v } }

/-- Consumer-side `obj.gpu.utilization = v` through the object at
address `ref`. -/
def writeGpuUtilization (h : StatsHeap) (ref : ℕ) (v : ℤ) : StatsHeap :=
  match h.statsObjs ref with
  | none => h
  | some s =>
      match h.gpuObjs s.gpuRef with
      | none => h
      | some g =>
          { h with gpuObjs :=
              updateAt h.gpuObjs s.gpuRef ({ g with utilization := some v }) }

/-- Consumer-side `obj.memory.used = v` through the object at
address `ref`. -/
def writeMemoryUsed (h : StatsHeap) (ref : ℕ) (v : ℚ) : StatsHeap :=
  match h.statsObjs ref with
  | none => h
  | some s =>
      match h.memObjs s.memoryRef with
      | none => h
      | some m =>
          { h with memObjs :=
              updateAt h.memObjs s.memoryRef ({ m with used := v }) }

/-- `obj.fps` read through the object at address `ref`. -/
def readFps (h : StatsHeap) (ref : ℕ) : Option ℚ :=
  match h.statsObjs ref with
  | none => none
  | some s => some s.fps

/-- `obj.gpu.utilization` read through the object at address `ref`. -/
def readGpuUtilization (h : StatsHeap) (ref : ℕ) : Option ℤ :=
  match h.statsObjs ref with
  | none => none
  | some s =>
      match h.gpuObjs s.gpuRef with
      | none => none
      | some g => g.utilization

/-- `obj.memory.used` read through the object at address `ref`. -/
def readMemoryUsed (h : StatsHeap) (ref : ℕ) : Option ℚ :=
  match h.statsObjs ref with
  | none => none
  | some s =>
      match h.memObjs s.memoryRef with
      | none => none
      | some m => some m.used

/-- A one-monitor heap for the C6 scenario: the monitor's `stats`
object at address 0 points at a `memory` record and a `gpu` record
(utilization 50). -/
def c6Heap : StatsHeap :=
  { statsObjs := fun i => if i = 0 then some ⟨0, 0, 0, 0, 0, 0, 0⟩ else none
    memObjs := fun i =>
      if i = 0 then some ⟨0, 0, 0, ⟨0, 0, 0⟩, ⟨0, 0, 0⟩⟩ else none
    gpuObjs := fun i => if i = 0 then some ⟨none, some 50, none⟩ else none
    nextStats := 1 }

/-! ## Theorems -/

theorem jsRound_monotone : Monotone jsRound := fun _ _ h =>
  Int.floor_le_floor (by linarith)

theorem jsRound_intCast (n : ℤ) : jsRound (n : ℚ) = n := by
  unfold jsRound
  rw [Int.floor_eq_iff]
  constructor <;> [push_cast; push_cast] <;> linarith

theorem jsRound_max_intCast (n : ℤ) (x : ℚ) :
    jsRound (max (n : ℚ) x) = max n (jsRound x) := by
  rw [jsRound_monotone.map_max, jsRound_intCast]

theorem jsRound_min_intCast (n : ℤ) (x : ℚ) :
    jsRound (min (n : ℚ) x) = min n (jsRound x) := by
  rw [jsRound_monotone.map_min, jsRound_intCast]

/-- C3: For every theme identifier and every utilization u ∈ [0,100],
the estimated power is `powerW = round(base + 70·(u/100))` where base
is the theme's entry in the baseline table (light 14, dark 9,
high-contrast 11, eink 7, oled 6) and 10 W when the theme is not in
the table; in particular for theme = dark and u = 50 the result is
exactly 44. -/
theorem estimatePowerW_spec (theme : String) (u : ℚ)
    (h0 : 0 ≤ u) (h1 : u ≤ 100) :
    estimatePowerW theme u = specPowerW theme u
      ∧ estimatePowerW "dark" 50 = 44 := by
  refine ⟨?_, by norm_num [estimatePowerW, themeBaselineWatts, jsRound]⟩
  unfold estimatePowerW specPowerW themeBaselineWatts
  split <;> rfl

/-- Witness for C3 at theme = "dark", u = 50. -/
theorem estimatePowerW_spec_witness :
    estimatePowerW "dark" 50 = specPowerW "dark" 50
      ∧ estimatePowerW "dark" 50 = 44 :=
  estimatePowerW_spec "dark" 50 (by norm_num) (by norm_num)

/-- C9: The windowed-average computation applied to an empty sample
list resolves to 0 for both the utilization mean and the power mean —
never NaN and never a division error — and over a non-empty list
resolves to the rounded arithmetic means of the collected samples. -/
theorem measureAverages_spec (utilSamples powerSamples : List ℚ)
    (hu : utilSamples ≠ []) (hp : powerSamples ≠ []) :
    measureAveragesResult [] [] = (0, 0)
      ∧ measureAveragesResult utilSamples powerSamples
          = (jsRound (utilSamples.sum / utilSamples.length),
             jsRound (powerSamples.sum / powerSamples.length)) := by
  constructor
  · norm_num [measureAveragesResult, measureAvg, jsRound]
  · have hu' : utilSamples.isEmpty = false := by simp [List.isEmpty_iff, hu]
    have hp' : powerSamples.isEmpty = false := by simp [List.isEmpty_iff, hp]
    simp [measureAveragesResult, measureAvg, hu', hp']

/-- Witness for C9 over the one-element sample lists `[70]` and `[44]`. -/
theorem measureAverages_spec_witness :
    measureAveragesResult [] [] = (0, 0)
      ∧ measureAveragesResult [(70 : ℚ)] [(44 : ℚ)]
          = (jsRound ((70 : ℚ) / 1), jsRound ((44 : ℚ) / 1)) := by
  have h := measureAverages_spec [(70 : ℚ)] [(44 : ℚ)] (by decide) (by decide)
  simpa using h

/-- C10: The public FPS setters keep the cadence configuration in
range and never produce a zero or negative frame interval: for every
numeric or missing argument n, after `setTargetFps(n)` the foreground
target satisfies `1 ≤ targetFps ≤ 120` with
`frameIntervalMs = 1000/targetFps` (falsy n falls back to 30), and
after `setBackgroundFps(n)` the hidden-tab rate satisfies
`1 ≤ backgroundFps ≤ 30` (falsy n falls back to 5). -/
theorem fps_setters_spec (st : SceneState) (n : Option ℚ) :
    (1 ≤ (setTargetFps st n).targetFps
      ∧ (setTargetFps st n).targetFps ≤ 120
      ∧ (setTargetFps st n).frameIntervalMs = 1000 / (setTargetFps st n).targetFps
      ∧ 0 < (setTargetFps st n).frameIntervalMs
      ∧ ((n = none ∨ n = some 0) → (setTargetFps st n).targetFps = 30))
    ∧ (1 ≤ (setBackgroundFps st n).backgroundFps
      ∧ (setBackgroundFps st n).backgroundFps ≤ 30
      ∧ ((n = none ∨ n = some 0) → (setBackgroundFps st n).backgroundFps = 5)) := by
  unfold setTargetFps setBackgroundFps
  have h120 : (0:ℚ) < 120 := by norm_num
  refine ⟨⟨le_max_left _ _, ?_, rfl, ?_, ?_⟩, le_max_left _ _, ?_, ?_⟩
  · rcases n with _ | x
    · simp
    · by_cases hx : x = 0 <;> simp [hx, min_le_iff]
  · have h1 : (1:ℚ) ≤ max 1 (min 120 (match n with
        | none => (30:ℚ) | some x => if x = 0 then 30 else x)) := le_max_left _ _
    positivity
  · rintro (rfl | rfl) <;> norm_num
  · rcases n with _ | x
    · simp
    · by_cases hx : x = 0 <;> simp [hx, min_le_iff]
  · rintro (rfl | rfl) <;> norm_num

/-- Witness for C10 at the initial scene state with a missing argument. -/
theorem fps_setters_spec_witness :
    (1 ≤ (setTargetFps initialSceneState none).targetFps
      ∧ (setTargetFps initialSceneState none).targetFps ≤ 120
      ∧ (setTargetFps initialSceneState none).frameIntervalMs
          = 1000 / (setTargetFps initialSceneState none).targetFps
      ∧ 0 < (setTargetFps initialSceneState none).frameIntervalMs
      ∧ (setTargetFps initialSceneState none).targetFps = 30)
    ∧ (1 ≤ (setBackgroundFps initialSceneState none).backgroundFps
      ∧ (setBackgroundFps initialSceneState none).backgroundFps ≤ 30
      ∧ (setBackgroundFps initialSceneState none).backgroundFps = 5) := by
  have h := fps_setters_spec initialSceneState none
  exact ⟨⟨h.1.1, h.1.2.1, h.1.2.2.1, h.1.2.2.2.1, h.1.2.2.2.2 (Or.inl rfl)⟩,
    h.2.1, h.2.2.1, h.2.2.2 (Or.inl rfl)⟩

/-- C7: For every starting cadence state, calling
`setPerformanceMode('baseline')` and then
`setPerformanceMode('optimized')` leaves the configuration in exactly
the optimized preset — targetFps/fpsCap = 30 and
pixelRatioClamp/pixelRatioMax = 1.5 — regardless of the values the
baseline phase set in between, and each mode switch applies all of
its settings together with no partial application visible to the next
tick (each switch is a single total state transform that sets the
whole preset at once). -/
theorem setPerformanceMode_roundtrip (st : SceneState) :
    setPerformanceMode (setPerformanceMode st "baseline") "optimized"
        = setPerformanceMode st "optimized"
      ∧ (setPerformanceMode (setPerformanceMode st "baseline") "optimized").targetFps = 30
      ∧ (setPerformanceMode (setPerformanceMode st "baseline") "optimized").frameIntervalMs
          = 1000 / 30
      ∧ (setPerformanceMode (setPerformanceMode st "baseline") "optimized").pixelRatioClamp
          = 3/2
      ∧ (setPerformanceMode st "baseline").targetFps = 60
      ∧ (setPerformanceMode st "baseline").frameIntervalMs = 1000 / 60
      ∧ (setPerformanceMode st "baseline").pixelRatioClamp = 3 := by
  simp [setPerformanceMode]

/-- The single-step shape of every rolling window: pushing onto the
last-`size` suffix yields the last-`size` suffix of the extended
sequence. -/
theorem pushRolling_lastN (size : ℕ) (l : List ℚ) (x : ℚ) :
    pushRolling size (lastN size l) x = lastN size (l ++ [x]) := by
  unfold pushRolling lastN
  rcases Nat.eq_zero_or_pos size with hs | hs
  · subst hs
    simp [List.drop_eq_nil_of_le]
  · by_cases hlt : l.length < size
    · have h1 : l.length - size = 0 := by omega
      have h2 : (l ++ [x]).length - size = 0 := by
        simp only [List.length_append, List.length_cons, List.length_nil]
        omega
      rw [h1, h2]
      have h3 : ¬ size < (l.drop 0 ++ [x]).length := by
        simp only [List.drop_zero, List.length_append, List.length_cons, List.length_nil]
        omega
      rw [if_neg h3]
      simp
    · push_neg at hlt
      have hk : l.length - size ≤ l.length := Nat.sub_le _ _
      have hlen : (l.drop (l.length - size)).length = size := by
        rw [List.length_drop]; omega
      have h4 : size < (l.drop (l.length - size) ++ [x]).length := by
        simp [hlen]
      rw [if_pos h4]
      have hne : l.drop (l.length - size) ≠ [] := by
        intro h
        rw [h] at hlen
        simp at hlen
        omega
      have htail : (l.drop (l.length - size) ++ [x]).tail
          = (l.drop (l.length - size)).tail ++ [x] := by
        cases hd : l.drop (l.length - size) with
        | nil => exact absurd hd hne
        | cons a t => simp
      rw [htail, List.tail_drop]
      have h5 : (l ++ [x]).length - size = l.length - size + 1 := by
        simp; omega
      rw [h5, List.drop_append_of_le_length (by omega)]

/-- Running any rolling window from empty over a full insertion
sequence keeps exactly the last `size` insertions. -/
theorem foldl_pushRolling (size : ℕ) (xs : List ℚ) :
    xs.foldl (pushRolling size) [] = lastN size xs := by
  induction xs using List.reverseRecOn with
  | nil => simp [lastN]
  | append_singleton ys y ih =>
      rw [List.foldl_append]
      simp only [List.foldl_cons, List.foldl_nil]
      rw [ih, pushRolling_lastN]

/-- C8: Every rolling sample window in the system (the capacity-60
frame-time window, the capacity-120 FPS-peak window, and the
dashboard's rolling buffers) satisfies, after every sequence of
insertions of any length: length ≤ capacity, insertion order is
preserved (the window is a suffix of the insertion sequence), and
when an insertion occurs at capacity the single oldest element is
evicted (FIFO). -/
theorem rollingWindow_spec (size : ℕ) (xs : List ℚ) (l : List ℚ) (x : ℚ)
    (hsize : 0 < size) (hl : l.length = size) :
    xs.foldl (pushRolling size) [] = lastN size xs
      ∧ (xs.foldl (pushRolling size) []).length ≤ size
      ∧ List.IsSuffix (xs.foldl (pushRolling size) []) xs
      ∧ pushRolling size l x = l.tail ++ [x] := by
  refine ⟨foldl_pushRolling size xs, ?_, ?_, ?_⟩
  · rw [foldl_pushRolling]
    unfold lastN
    rw [List.length_drop]
    omega
  · rw [foldl_pushRolling]
    exact List.drop_suffix _ _
  · unfold pushRolling
    have h1 : size < (l ++ [x]).length := by simp [hl]
    rw [if_pos h1]
    cases hd : l with
    | nil => rw [hd] at hl; simp at hl; omega
    | cons a t => simp

/-- Witness for C8: capacity 2, insertion sequence `[1, 2, 3]`, and an
eviction step on the full window `[5, 6]`. -/
theorem rollingWindow_spec_witness :
    [(1 : ℚ), 2, 3].foldl (pushRolling 2) [] = lastN 2 [(1 : ℚ), 2, 3]
      ∧ pushRolling 2 [(5 : ℚ), 6] 7 = List.tail [(5 : ℚ), 6] ++ [7] := by
  have h := rollingWindow_spec 2 [(1 : ℚ), 2, 3] [(5 : ℚ), 6] 7
    (by norm_num) (by norm_num)
  exact ⟨h.1, h.2.2.2⟩

/-- C2 counterexample: the code does not clamp the ramp parameter
below at 0.  For the visible state with `rampStartMs = 900`,
`rampDurationMs = 900`, `backgroundFps = 5`, `targetFps = 30` queried
at `now = 0`, the claimed value (`t = clamp(-1, 0, 1) = 0`, so the
hidden interval `200`) differs from the computed one: the code uses
`t = min(1, -1) = -1`, easing factor `5`, giving `-1900/3`. -/
theorem getEffectiveIntervalMs_counterexample :
    getEffectiveIntervalMs ⟨30, 5, 1000/30, 0, false, 900, 900, 3/2, 1⟩ 0 = -1900/3
      ∧ (-1900/3 : ℚ) ≠ 1000 / 5 := by
  constructor
  · norm_num [getEffectiveIntervalMs, min_def]
  · norm_num

/-- C2 (amended): for a reachable configuration
(`backgroundFps ≥ 1`, `frameIntervalMs = 1000/targetFps`, ramp
duration at its constant 900 ms), the effective inter-frame interval
equals `1000/backgroundFps` when the tab is hidden; equals
`1000/targetFps` when visible with no ramp in progress (t ≥ 1 or no
recorded ramp start); and during the ramp after becoming visible
equals `hiddenInterval + (visibleInterval − hiddenInterval)·e` where
`e = t²·(3−2t)` and `t = min(1, (now − rampStart)/rampDuration)` —
the code applies no lower clamp to `t`, so for `now < rampStart` the
parameter is negative rather than 0. -/
theorem getEffectiveIntervalMs_spec (st : SceneState) (now : ℚ)
    (hbg : 1 ≤ st.backgroundFps)
    (hfi : st.frameIntervalMs = 1000 / st.targetFps)
    (hrd : st.rampDurationMs = 900) :
    (st.isHidden = true → getEffectiveIntervalMs st now = 1000 / st.backgroundFps)
    ∧ (st.isHidden = false →
        (st.rampStartMs = 0 ∨ 1 ≤ (now - st.rampStartMs) / 900) →
        getEffectiveIntervalMs st now = 1000 / st.targetFps)
    ∧ (st.isHidden = false → st.rampStartMs ≠ 0 →
        getEffectiveIntervalMs st now
          = 1000 / st.backgroundFps
            + (1000 / st.targetFps - 1000 / st.backgroundFps)
              * (min 1 ((now - st.rampStartMs) / 900)
                 * min 1 ((now - st.rampStartMs) / 900)
                 * (3 - 2 * min 1 ((now - st.rampStartMs) / 900)))) := by
  have hmax : max 1 st.backgroundFps = st.backgroundFps := max_eq_right hbg
  refine ⟨?_, ?_, ?_⟩
  · intro hh
    simp [getEffectiveIntervalMs, hh, hmax]
  · intro hh hcase
    by_cases h0 : st.rampStartMs = 0
    · simp only [getEffectiveIntervalMs, hh, hmax, h0, hfi, if_true, if_false,
        Bool.false_eq_true, if_neg (lt_irrefl (1 : ℚ))]
      ring
    · rcases hcase with h0' | h1
      · exact absurd h0' h0
      · have ht : min 1 ((now - st.rampStartMs) / st.rampDurationMs) = 1 := by
          rw [hrd]; exact min_eq_left h1
        simp only [getEffectiveIntervalMs, hh, hmax, if_neg h0, hfi, ht,
          Bool.false_eq_true, if_false, if_neg (lt_irrefl (1 : ℚ))]
        ring
  · intro hh h0
    simp only [getEffectiveIntervalMs, hh, hmax, if_neg h0, hrd,
      Bool.false_eq_true, if_false]
    by_cases hlt : min 1 ((now - st.rampStartMs) / 900) < 1
    · rw [if_pos hlt, hfi]
    · have ht1 : min 1 ((now - st.rampStartMs) / 900) = 1 :=
        le_antisymm (min_le_left _ _) (not_lt.mp hlt)
      rw [if_neg hlt, ht1, hfi]
      ring

/-- Witness for C2 at a visible state mid-ramp: `rampStartMs = 1000`,
queried at `now = 1450`, so `t = 1/2`. -/
theorem getEffectiveIntervalMs_spec_witness :
    getEffectiveIntervalMs ⟨30, 5, 1000/30, 0, false, 1000, 900, 3/2, 1⟩ 1450
      = 1000 / 5
        + (1000 / 30 - 1000 / 5)
          * (min 1 (((1450 : ℚ) - 1000) / 900)
             * min 1 (((1450 : ℚ) - 1000) / 900)
             * (3 - 2 * min 1 (((1450 : ℚ) - 1000) / 900))) :=
  (getEffectiveIntervalMs_spec ⟨30, 5, 1000/30, 0, false, 1000, 900, 3/2, 1⟩ 1450
    (by norm_num) (by norm_num) rfl).2.2 rfl (by norm_num)

/-- C5 counterexample: on the very first animation tick (no
`lastRenderTime` recorded) the controller does not render: it only
seeds `lastRenderTime`, because the elapsed time is then 0, which is
below the positive effective interval (here `1000/30`). -/
theorem animate_counterexample :
    (animate initialSceneState 1000).2 = false
      ∧ (animate initialSceneState 1000).1.lastRenderTime = 1000 := by
  constructor <;> norm_num [animate, getEffectiveIntervalMs, initialSceneState]

/-- C5 (amended): on the first tick (no `lastRenderTime` recorded,
i.e. the sentinel 0) the cadence controller only seeds
`lastRenderTime` with the tick's timestamp and does not render
(whenever the effective interval is positive, which it always is for
reachable configurations); on every later tick it renders exactly
when `now − lastRenderTime ≥ effectiveInterval`, resetting
`lastRenderTime` to `now` on a render.  The same holds for the door
scene's loop against its fixed `frameIntervalMs` threshold (when not
paused). -/
theorem animate_spec (st : SceneState) (d : DoorState) (now : ℚ) :
    (st.lastRenderTime = 0 → 0 < getEffectiveIntervalMs st now →
        animate st now = ({ st with lastRenderTime := now }, false))
    ∧ (st.lastRenderTime ≠ 0 →
        (getEffectiveIntervalMs st now ≤ now - st.lastRenderTime →
            animate st now = ({ st with lastRenderTime := now }, true))
        ∧ (now - st.lastRenderTime < getEffectiveIntervalMs st now →
            animate st now = (st, false)))
    ∧ (d.isPaused = false → d.lastRenderTime = 0 → 0 < d.frameIntervalMs →
        animateDoor d now = ({ d with lastRenderTime := now }, false))
    ∧ (d.isPaused = false → d.lastRenderTime ≠ 0 →
        (d.frameIntervalMs ≤ now - d.lastRenderTime →
            animateDoor d now = ({ d with lastRenderTime := now }, true))
        ∧ (now - d.lastRenderTime < d.frameIntervalMs →
            animateDoor d now = (d, false))) := by
  have heff : ∀ t : ℚ, getEffectiveIntervalMs { st with lastRenderTime := t } now
      = getEffectiveIntervalMs st now := by
    intro t
    simp [getEffectiveIntervalMs]
  refine ⟨?_, fun hne => ⟨?_, ?_⟩, ?_, fun hp hne => ⟨?_, ?_⟩⟩
  · intro h0 hpos
    simp only [animate, if_pos h0, heff]
    rw [if_neg (by simp; linarith)]
  · intro hdue
    simp only [animate, if_neg (by simpa using fun h => absurd h hne)]
    rw [if_pos (by linarith)]
  · intro hnot
    simp only [animate, if_neg (by simpa using fun h => absurd h hne)]
    rw [if_neg (by simp; linarith)]
  · intro hp h0 hpos
    simp only [animateDoor, hp, if_pos h0, Bool.false_eq_true, if_false]
    rw [if_neg (by simp; linarith)]
  · intro hdue
    simp only [animateDoor, hp, Bool.false_eq_true, if_false,
      if_neg (by simpa using fun h => absurd h hne)]
    rw [if_pos (by linarith)]
  · intro hnot
    simp only [animateDoor, hp, Bool.false_eq_true, if_false,
      if_neg (by simpa using fun h => absurd h hne)]
    rw [if_neg (by simp; linarith)]

/-- Witness for C5: a seeded state (`lastRenderTime = 100`) ticked at
`now = 200` renders in both loops. -/
theorem animate_spec_witness :
    animate ⟨30, 5, 1000/30, 100, false, 0, 900, 3/2, 1⟩ 200
        = (⟨30, 5, 1000/30, 200, false, 0, 900, 3/2, 1⟩, true)
      ∧ animateDoor ⟨false, 30, 1000/30, 100, true⟩ 200
        = (⟨false, 30, 1000/30, 200, true⟩, true) := by
  have h := animate_spec ⟨30, 5, 1000/30, 100, false, 0, 900, 3/2, 1⟩
    ⟨false, 30, 1000/30, 100, true⟩ 200
  exact ⟨(h.2.1 (by norm_num)).1 (by norm_num [getEffectiveIntervalMs]),
    ((h.2.2.2 rfl (by norm_num)).1 (by norm_num))⟩

/-- The two blend orderings of the utilization formula agree. -/
theorem blendEq (a b : ℚ) :
    (a * (7/10) + b * (3/10)) * 100 = 100 * ((7/10) * a + (3/10) * b) := by
  ring

/-- Rounding commutes with the 5..100 clamp (both are monotone and fix
the integer endpoints). -/
theorem jsRound_clamp (x : ℚ) :
    jsRound (max 5 (min 100 x)) = max 5 (min 100 (jsRound x)) := by
  have h5 : (5 : ℚ) = ((5 : ℤ) : ℚ) := by norm_num
  have h100 : (100 : ℚ) = ((100 : ℤ) : ℚ) := by norm_num
  rw [h5, h100, jsRound_max_intCast, jsRound_min_intCast]

/-- The clamped-then-rounded utilization always lands in `[5, 100]`. -/
theorem jsRound_clamp_bounds (x : ℚ) :
    5 ≤ jsRound (max 5 (min 100 x)) ∧ jsRound (max 5 (min 100 x)) ≤ 100 := by
  constructor
  · have h := jsRound_monotone (le_max_left (5 : ℚ) (min 100 x))
    rwa [show jsRound (5 : ℚ) = 5 from by norm_num [jsRound]] at h
  · have hle : max (5 : ℚ) (min 100 x) ≤ 100 :=
      max_le (by norm_num) (min_le_left _ _)
    have h := jsRound_monotone hle
    rwa [show jsRound (100 : ℚ) = 100 from by norm_num [jsRound]] at h

/-- C1 counterexample: at `fps = 0`, `peakFps = 1`, no draw calls and
no triangles, the code reports utilization 70 (it floors fps at 1
before dividing), while the claimed formula (raw fps in the ratio)
gives 5. -/
theorem estimateGPUUtilization_counterexample :
    (estimateGPUUtilization "light" 0 1 0 0).utilizationPct = 70
      ∧ claimedUtilizationPct 0 1 0 0 = 5 := by
  constructor <;>
    norm_num [estimateGPUUtilization, claimedUtilizationPct, jsRound]

/-- C1 (amended): for every input tuple, the estimator computes
`utilizationPct = clamp(5, 100, round(100·(0.7·min(1, max(1, fps) /
max(1, peakFps')) + 0.3·min(1, drawCalls/200 + triangleCount/500000))))`
where `peakFps' = 60` when `peakFps = 0` and `peakFps` otherwise (the
code floors `fps` at 1 and substitutes 60 for a zero peak before the
ratio); in particular `utilizationPct` is always an integer with
`5 ≤ utilizationPct ≤ 100`. -/
theorem estimateGPUUtilization_spec (theme : String)
    (fps dynamicPeakFps drawCalls triangles : ℚ) :
    (estimateGPUUtilization theme fps dynamicPeakFps drawCalls triangles).utilizationPct
        = claimedUtilizationPct (max 1 fps)
            (if dynamicPeakFps = 0 then 60 else dynamicPeakFps) drawCalls triangles
      ∧ 5 ≤ (estimateGPUUtilization theme fps dynamicPeakFps drawCalls triangles).utilizationPct
      ∧ (estimateGPUUtilization theme fps dynamicPeakFps drawCalls triangles).utilizationPct
          ≤ 100 := by
  refine ⟨?_, ?_, ?_⟩
  · simp only [estimateGPUUtilization, claimedUtilizationPct]
    rw [jsRound_clamp, blendEq]
  · exact (jsRound_clamp_bounds _).1
  · exact (jsRound_clamp_bounds _).2

/-- Every element of a list is at most its `listMax`. -/
theorem le_foldl_max (t : List ℚ) (b : ℚ) : b ≤ t.foldl max b := by
  induction t generalizing b with
  | nil => simp
  | cons c t ih => exact le_trans (le_max_left b c) (ih (max b c))

theorem mem_le_foldl_max (t : List ℚ) (b x : ℚ) (hx : x ∈ t) :
    x ≤ t.foldl max b := by
  induction t generalizing b with
  | nil => cases hx
  | cons c t ih =>
    rcases List.mem_cons.mp hx with rfl | h
    · exact le_trans (le_max_right b x) (le_foldl_max t (max b x))
    · exact ih (max b c) h

theorem listMax_ge (l : List ℚ) (x : ℚ) (hx : x ∈ l) : x ≤ listMax l := by
  cases l with
  | nil => cases hx
  | cons a t =>
    rcases List.mem_cons.mp hx with rfl | h
    · exact le_foldl_max t x
    · exact mem_le_foldl_max t a x h

/-- A rolling push keeps the element just inserted (capacity ≥ 1). -/
theorem mem_pushRolling_self (size : ℕ) (hs : 0 < size) (l : List ℚ) (x : ℚ) :
    x ∈ pushRolling size l x := by
  simp only [pushRolling]
  cases l with
  | nil =>
    rw [if_neg (by simp; omega)]
    simp
  | cons a t => split <;> simp

/-- Every element of a rolling push comes from the old window or is
the pushed element. -/
theorem pushRolling_subset (size : ℕ) (l : List ℚ) (x : ℚ) :
    pushRolling size l x ⊆ l ++ [x] := by
  simp only [pushRolling]
  split
  · exact List.tail_subset _
  · exact fun y hy => hy

/-- A rolling push never empties the window (capacity ≥ 1). -/
theorem pushRolling_ne_nil (size : ℕ) (hs : 0 < size) (l : List ℚ) (x : ℚ) :
    pushRolling size l x ≠ [] := by
  simp only [pushRolling]
  split
  · rename_i h
    cases l with
    | nil =>
      simp only [List.nil_append, List.length_cons, List.length_nil] at h
      omega
    | cons a t => simp
  · simp

/-- C4 counterexample: with the call sequence `t₀ = 0 < t₁ = 5`, the
second call does not push the delta 5 — the zero seed is
indistinguishable from the unseeded sentinel, so the second call acts
as the seeding call and no metric is updated. -/
theorem onFrameRendered_counterexample :
    (onFrameRendered (onFrameRendered initSampler 0) 5).frameTimes = ([] : List ℚ)
      ∧ (onFrameRendered (onFrameRendered initSampler 0) 5).fps = 0 := by
  constructor <;> rfl

/-- C4 (amended): for call sequences at timestamps `0 < t₀ < t₁ < …`,
a call finding the zero sentinel only seeds the previous timestamp and
changes no published metric; each later call pushes the delta
`now − previous` into the capacity-60 window, sets `frameTime` to the
arithmetic mean of that window and `fps` to `1000/mean` (the mean of
positive deltas is positive, so the zero/non-finite skip-guard never
fires), and sets the peak FPS to the running max over the capacity-120
window of computed FPS values. -/
theorem onFrameRendered_spec (s : MonitorSampler) (now : ℚ) (hnow : 0 < now) :
    (s.lastRenderNow = 0 →
        onFrameRendered s now = { s with lastRenderNow := now })
    ∧ (0 < s.lastRenderNow → s.lastRenderNow < now →
        (∀ x ∈ s.frameTimes, 0 < x) →
        (onFrameRendered s now).lastRenderNow = now
        ∧ (onFrameRendered s now).frameTimes
            = pushRolling 60 s.frameTimes (now - s.lastRenderNow)
        ∧ (onFrameRendered s now).frameTime
            = (onFrameRendered s now).frameTimes.sum
                / ((onFrameRendered s now).frameTimes.length : ℚ)
        ∧ (onFrameRendered s now).fps = 1000 / (onFrameRendered s now).frameTime
        ∧ (onFrameRendered s now).fpsSamples
            = pushRolling 120 s.fpsSamples ((onFrameRendered s now).fps)
        ∧ (onFrameRendered s now).dynamicPeakFps
            = listMax ((onFrameRendered s now).fpsSamples)) := by
  constructor
  · intro h0
    simp [onFrameRendered, h0]
  · intro hpos hlt hft
    have hne : ¬ (s.lastRenderNow = 0) := ne_of_gt hpos
    have hdelta : 0 < now - s.lastRenderNow := by linarith
    have hftpos : ∀ x ∈ pushRolling 60 s.frameTimes (now - s.lastRenderNow), 0 < x := by
      intro x hx
      rcases List.mem_append.mp (pushRolling_subset 60 s.frameTimes _ hx) with h | h
      · exact hft x h
      · rw [List.mem_singleton.mp h]
        exact hdelta
    have hftne : pushRolling 60 s.frameTimes (now - s.lastRenderNow) ≠ [] :=
      pushRolling_ne_nil 60 (by norm_num) _ _
    have hsum : 0 < (pushRolling 60 s.frameTimes (now - s.lastRenderNow)).sum :=
      List.sum_pos _ hftpos hftne
    have hlen : (0 : ℚ) < ((pushRolling 60 s.frameTimes (now - s.lastRenderNow)).length : ℚ) := by
      exact_mod_cast List.length_pos.mpr hftne
    have havg : 0 < (pushRolling 60 s.frameTimes (now - s.lastRenderNow)).sum
        / ((pushRolling 60 s.frameTimes (now - s.lastRenderNow)).length : ℚ) :=
      div_pos hsum hlen
    have havgne : ¬ ((pushRolling 60 s.frameTimes (now - s.lastRenderNow)).sum
        / ((pushRolling 60 s.frameTimes (now - s.lastRenderNow)).length : ℚ) = 0) :=
      ne_of_gt havg
    have hfps : 0 < 1000 / ((pushRolling 60 s.frameTimes (now - s.lastRenderNow)).sum
        / ((pushRolling 60 s.frameTimes (now - s.lastRenderNow)).length : ℚ)) :=
      div_pos (by norm_num) havg
    have hmem := mem_pushRolling_self 120 (by norm_num) s.fpsSamples
      (1000 / ((pushRolling 60 s.frameTimes (now - s.lastRenderNow)).sum
        / ((pushRolling 60 s.frameTimes (now - s.lastRenderNow)).length : ℚ)))
    have hpk : 0 < listMax (pushRolling 120 s.fpsSamples
        (1000 / ((pushRolling 60 s.frameTimes (now - s.lastRenderNow)).sum
          / ((pushRolling 60 s.frameTimes (now - s.lastRenderNow)).length : ℚ)))) :=
      lt_of_lt_of_le hfps (listMax_ge _ _ hmem)
    simp only [onFrameRendered, if_neg hne, if_neg havgne, if_pos hpk]
    simp

/-- Witness for C4: a seeded sampler (`lastRenderNow = 10`, empty
windows) receiving a frame at `now = 30`. -/
theorem onFrameRendered_spec_witness :
    (onFrameRendered ⟨10, [], 0, 0, [], 60⟩ 30).lastRenderNow = 30
      ∧ (onFrameRendered ⟨10, [], 0, 0, [], 60⟩ 30).frameTimes
          = pushRolling 60 [] (30 - 10)
      ∧ (onFrameRendered ⟨10, [], 0, 0, [], 60⟩ 30).frameTime
          = (onFrameRendered ⟨10, [], 0, 0, [], 60⟩ 30).frameTimes.sum
              / (((onFrameRendered ⟨10, [], 0, 0, [], 60⟩ 30).frameTimes.length : ℚ))
      ∧ (onFrameRendered ⟨10, [], 0, 0, [], 60⟩ 30).fps
          = 1000 / (onFrameRendered ⟨10, [], 0, 0, [], 60⟩ 30).frameTime
      ∧ (onFrameRendered ⟨10, [], 0, 0, [], 60⟩ 30).fpsSamples
          = pushRolling 120 [] ((onFrameRendered ⟨10, [], 0, 0, [], 60⟩ 30).fps)
      ∧ (onFrameRendered ⟨10, [], 0, 0, [], 60⟩ 30).dynamicPeakFps
          = listMax ((onFrameRendered ⟨10, [], 0, 0, [], 60⟩ 30).fpsSamples) :=
  (onFrameRendered_spec ⟨10, [], 0, 0, [], 60⟩ 30 (by norm_num)).2
    (by norm_num) (by norm_num) (by simp)

/-- C6 counterexample: `getStats` is a shallow spread, so the
snapshot shares the `gpu` record with the monitor.  Writing
utilization 99 through the snapshot's `gpu` reference changes the
monitor's published `gpu.utilization` from 50 to 99 — the returned
object is not a defensive copy of the nested state. -/
theorem getStats_counterexample :
    readGpuUtilization
        (writeGpuUtilization (getStats c6Heap 0).1 (getStats c6Heap 0).2 99) 0
      = some 99
      ∧ readGpuUtilization c6Heap 0 = some 50
      ∧ (some (99 : ℤ)) ≠ some 50 := by
  refine ⟨rfl, rfl, by decide⟩

/-- C6 (amended): `getStats` returns a fresh top-level object whose
scalar fields are independent of the monitor's (mutating a top-level
field of the snapshot leaves the monitor's stats unchanged), but the
nested `gpu` and `memory` objects are shared by reference: mutating
`snapshot.gpu.utilization` or `snapshot.memory.used` changes the
monitor's internal stats and every subsequently returned snapshot. -/
theorem getStats_spec (h : StatsHeap) (mRef : ℕ) (s : StatsObj)
    (hm : h.statsObjs mRef = some s) (hfresh : mRef < h.nextStats)
    (vq : ℚ) (vz : ℤ) :
    (getStats h mRef).2 = h.nextStats
    ∧ (getStats h mRef).2 ≠ mRef
    ∧ (getStats h mRef).1.statsObjs (getStats h mRef).2 = some s
    ∧ (getStats h mRef).1.statsObjs mRef = some s
    ∧ readFps (writeFps (getStats h mRef).1 (getStats h mRef).2 vq) mRef
        = some s.fps
    ∧ (∀ g : GpuSubStats, h.gpuObjs s.gpuRef = some g →
        readGpuUtilization
            (writeGpuUtilization (getStats h mRef).1 (getStats h mRef).2 vz) mRef
          = some vz)
    ∧ (∀ m : MemoryStats, h.memObjs s.memoryRef = some m →
        readMemoryUsed
            (writeMemoryUsed (getStats h mRef).1 (getStats h mRef).2 vq) mRef
          = some vq) := by
  have hne : mRef ≠ h.nextStats := by omega
  have hsnap : getStats h mRef
      = ({ h with statsObjs := updateAt h.statsObjs h.nextStats s,
                  nextStats := h.nextStats + 1 }, h.nextStats) := by
    simp [getStats, hm]
  have hAtSnap : updateAt h.statsObjs h.nextStats s h.nextStats = some s := by
    simp [updateAt]
  have hAtMon : updateAt h.statsObjs h.nextStats s mRef = some s := by
    simp [updateAt, hne, hm]
  refine ⟨by rw [hsnap], by rw [hsnap]; exact fun hc => hne hc.symm,
    by rw [hsnap]; exact hAtSnap, by rw [hsnap]; exact hAtMon, ?_, ?_, ?_⟩
  · rw [hsnap]
    simp only [writeFps, hAtSnap]
    simp only [readFps, updateAt, if_neg hne, hAtMon]
    simp [updateAt, hne, hm]
  · intro g hg
    rw [hsnap]
    simp only [writeGpuUtilization, hAtSnap, hg]
    simp only [readGpuUtilization, hAtMon]
    simp [updateAt]
  · intro m hmem
    rw [hsnap]
    simp only [writeMemoryUsed, hAtSnap, hmem]
    simp only [readMemoryUsed, hAtMon]
    simp [updateAt]

/-- Witness for C6 on the concrete one-monitor heap. -/
theorem getStats_spec_witness :
    (getStats c6Heap 0).2 = c6Heap.nextStats
      ∧ (getStats c6Heap 0).2 ≠ 0
      ∧ (getStats c6Heap 0).1.statsObjs (getStats c6Heap 0).2
          = some ⟨0, 0, 0, 0, 0, 0, 0⟩
      ∧ (getStats c6Heap 0).1.statsObjs 0 = some ⟨0, 0, 0, 0, 0, 0, 0⟩
      ∧ readFps (writeFps (getStats c6Heap 0).1 (getStats c6Heap 0).2 7) 0
          = some (0 : ℚ)
      ∧ readGpuUtilization
          (writeGpuUtilization (getStats c6Heap 0).1 (getStats c6Heap 0).2 99) 0
          = some 99
      ∧ readMemoryUsed
          (writeMemoryUsed (getStats c6Heap 0).1 (getStats c6Heap 0).2 7) 0
          = some 7 := by
  have h := getStats_spec c6Heap 0 ⟨0, 0, 0, 0, 0, 0, 0⟩ rfl (by norm_num [c6Heap]) 7 99
  exact ⟨h.1, h.2.1, h.2.2.1, h.2.2.2.1, h.2.2.2.2.1,
    h.2.2.2.2.2.1 ⟨none, some 50, none⟩ rfl,
    h.2.2.2.2.2.2 ⟨0, 0, 0, ⟨0, 0, 0⟩, ⟨0, 0, 0⟩⟩ rfl⟩
